import Mathlib

/-!
Shallow embedding of the CodeSergeant focus-tracking agent's core decision
logic, verified against its natural-language specification.

Embedded components (translated from the Python source):
* `src/code_sergeant/judge.py`     — `ActivityJudge`: judgment engine with LLM
  backend, keyword override, cooldown suppression, rule-based fallback, and
  activity-pattern / goal-drift tracking.
* `src/code_sergeant/controller.py` — the judging worker's per-interval
  statistics update (`judge_worker_loop`).
* `src/code_sergeant/pomodoro.py`  — `PomodoroTimer` state machine.
* `src/code_sergeant/reminders.py` — `ReminderWorker.run`.
* `src/code_sergeant/models.py`    — the shared dataclasses.

Modelling conventions:
* Python floats for times/confidences become `ℚ`; counters become `ℕ`.
* Python `Literal` string fields (`classification`, `action`,
  `current_state`) become inductive types; free-form strings stay `String`.
* The LLM backend is abstracted as a `BackendResult` value: `ok d` means
  some chat attempt (first try or the one retry) produced a JSON object
  parsed into the dict `d`; `fail` means every attempt raised or returned
  unparsable output, i.e. the exception reaches `judge`'s handler and the
  rule-based fallback runs.  Prompt construction is not modelled (it does
  not affect the returned `Judgment` or the judge's mutable state).
* `random.choice` over phrase lists is modelled by an explicit parameter
  `phrase : String → String` giving the chosen phrase for each phrase type.
* `time.time()` at the cooldown check is the explicit argument `now`.
* Threading, locks, callbacks, logging and TTS are side effects outside the
  state modelled here; worker loop bodies become pure step functions.
-/

namespace CodeSergeant

/-- The five valid activity classifications (`models.Judgment.classification`,
a `Literal` string field in the source). -/
inductive Classification
  | on_task
  | off_task
  | idle
  | unknown
  | thinking
deriving DecidableEq, Repr

/-- The three valid escalation actions (`models.Judgment.action`). -/
inductive CSAction
  | none
  | warn
  | yell
deriving DecidableEq, Repr

/-- String rendering of a classification, as Python's f-string interpolation
of the `Literal` value produces it (used by `_track_activity_pattern`). -/
def classification_str : Classification → String
  | .on_task => "on_task"
  | .off_task => "off_task"
  | .idle => "idle"
  | .unknown => "unknown"
  | .thinking => "thinking"

/-- Python's substring test `pat in s` on strings. -/
def strContains (s pat : String) : Bool := decide (pat.data <:+: s.data)

/-- Python's character slice `s[:n]`. -/
def strTake (s : String) (n : ℕ) : String := ⟨s.data.take n⟩

/-- Python's `s.lower()`, characterwise (the keywords compared against are
all ASCII, where the two agree). -/
def strLower (s : String) : String := ⟨s.data.map Char.toLower⟩

/-- Model of `models.ActivityEvent`.  `ts` and `last_input_time` keep only a rational
timestamp; neither is read by the embedded functions. -/
structure ActivityEvent where
  ts : ℚ := 0
  app : String
  title : String
  url : Option String := none
  is_afk : Bool := false
  keyboard_active : Bool := true
  mouse_active : Bool := true
  last_input_time : Option ℚ := none
  idle_duration_seconds : ℚ := 0
  is_thinking : Bool := false
deriving DecidableEq, Repr

/-- Model of `models.Judgment`. -/
structure Judgment where
  classification : Classification
  confidence : ℚ
  reason : String
  say : String
  action : CSAction
deriving DecidableEq, Repr

/-- The JSON object returned by the LLM, after `json.loads`: each contract
field is either absent (`none`, covering both a missing key and JSON null)
or present with a value of its contract type. -/
structure JudgmentDict where
  classification : Option String := none
  confidence : Option ℚ := none
  reason : Option String := none
  say : Option String := none
  action : Option String := none
deriving DecidableEq, Repr

/-- Outcome of the AI-backend interaction inside `_judge_with_llm`: `ok d`
when some attempt yields a parsed JSON dict `d`, `fail` when the call (and
its retry) raise, so the exception propagates to `judge`'s handler. -/
inductive BackendResult
  | ok (d : JudgmentDict)
  | fail
deriving DecidableEq, Repr

/-- Mutable state of `ActivityJudge`: the rolling pattern buffer and the
consecutive off-task counter. -/
structure JudgeState where
  activity_pattern : List String := []
  consecutive_off_task_count : ℕ := 0
deriving DecidableEq, Repr

/-- Initial `ActivityJudge` pattern state (as after `reset_patterns`). -/
def initJudgeState : JudgeState := {}

/-- Source list `ActivityJudge.DISTRACTION_KEYWORDS` (class attribute in `judge.py`). -/
def DISTRACTION_KEYWORDS : List String := [
  "instagram", "facebook", "twitter", "x.com", "tiktok", "reddit",
  "snapchat", "linkedin", "threads", "mastodon", "bluesky",
  "youtube", "netflix", "hulu", "disney+", "hbo", "twitch",
  "vimeo", "dailymotion", "prime video",
  "discord", "whatsapp", "telegram", "messenger",
  "spotify", "apple music", "soundcloud",
  "steam", "epic games", "game",
  "espn", "sports"]

/-- Source list `entertainment_keywords` local to `_judge_fallback`. -/
def entertainment_keywords : List String := [
  "youtube", "netflix", "hulu", "disney+", "hbo", "prime video",
  "twitch", "vimeo", "dailymotion",
  "twitter", "x.com", "facebook", "instagram", "reddit", "tiktok",
  "snapchat", "linkedin", "threads", "mastodon", "bluesky",
  "discord", "whatsapp", "telegram", "messenger", "imessage",
  "spotify", "apple music", "soundcloud", "pandora",
  "news", "espn", "sports", "gaming", "game",
  "amazon", "ebay", "shopping", "store"]

/-- Source list `productive_keywords` local to `_judge_fallback`. -/
def productive_keywords : List String := [
  "code", "cursor", "vscode", "xcode", "sublime", "vim", "emacs", "neovim",
  "terminal", "iterm", "console", "shell",
  "docs", "documentation", "stackoverflow", "github", "gitlab", "bitbucket",
  "jira", "confluence", "notion", "obsidian",
  "figma", "sketch", "photoshop", "illustrator"]

/-- Sanitization of the `classification` field in `_validate_judgment`:
a value outside the valid list becomes `"unknown"`. -/
def classification_of_string (s : String) : Classification :=
  if s = "on_task" then .on_task
  else if s = "off_task" then .off_task
  else if s = "idle" then .idle
  else if s = "unknown" then .unknown
  else if s = "thinking" then .thinking
  else .unknown

/-- Sanitization of the `action` field in `_validate_judgment`: a value
outside `["none", "warn", "yell"]` becomes `"none"`. -/
def action_of_string (s : String) : CSAction :=
  if s = "none" then .none
  else if s = "warn" then .warn
  else if s = "yell" then .yell
  else .none

/-- Model of `ActivityJudge._validate_judgment` before the distraction override:
field extraction with defaults, confidence clamping to [0,1], and
truncation of `reason`/`say`. -/
def validate_base (d : JudgmentDict) : Judgment :=
  { classification := classification_of_string (d.classification.getD "unknown")
    confidence := max 0 (min 1 (d.confidence.getD (5/10)))
    reason := strTake (d.reason.getD "") 100
    say := strTake (d.say.getD "") 200
    action := action_of_string (d.action.getD "none") }

/-- The `OVERRIDE` block of `_validate_judgment`: with a nonempty activity
context, the loop finds the first distraction keyword contained in the
lowercased context and — unless the classification is already `off_task` —
forces `off_task`/0.95/`yell`, then breaks. -/
def apply_distraction_override (phrase : String → String) (activity_context : String)
    (j : Judgment) : Judgment :=
  if activity_context ≠ "" then
    match DISTRACTION_KEYWORDS.find? (fun kw => strContains (strLower activity_context) kw) with
    | some kw =>
        if j.classification ≠ .off_task then
          { classification := .off_task
            confidence := 95/100
            action := .yell
            reason := "Detected distraction: " ++ kw
            say := phrase "off_task_yell" }
        else j
    | none => j
  else j

/-- The final block of `_validate_judgment`: an empty `say` with a
non-`none` action is replaced by a generated phrase. -/
def fill_empty_say (phrase : String → String) (j : Judgment) : Judgment :=
  if j.say = "" ∧ j.action ≠ .none then
    { j with say := if j.action = .yell then phrase "off_task_yell" else phrase "off_task_warning" }
  else j

/-- Model of `ActivityJudge._validate_judgment`: sanitize the dict
(`validate_base`), then the distraction override, then the empty-`say`
fill — the three sequential steps of the source method. -/
def validate_judgment (phrase : String → String) (d : JudgmentDict)
    (activity_context : String) : Judgment :=
  fill_empty_say phrase (apply_distraction_override phrase activity_context (validate_base d))

/-- Model of `ActivityJudge._judge_fallback`: the STRICT rule-based classifier used
when no AI judgment is available. -/
def judge_fallback (phrase : String → String) (goal : String)
    (activity : ActivityEvent) : Judgment :=
  let app_lower := strLower activity.app
  let title_lower := strLower activity.title
  let combined := app_lower ++ " " ++ title_lower
  let is_entertainment := entertainment_keywords.any (fun kw => strContains combined kw)
  if is_entertainment then
    { classification := .off_task
      confidence := 9/10
      reason := "Detected entertainment/social/distraction"
      say := phrase "off_task_yell"
      action := .yell }
  else
    let is_productive := productive_keywords.any (fun kw => strContains combined kw)
    if is_productive then
      if activity.is_thinking ∨
          (30 ≤ activity.idle_duration_seconds ∧ activity.idle_duration_seconds ≤ 180) then
        { classification := .thinking
          confidence := 7/10
          reason := "User appears to be thinking in productive app"
          say := ""
          action := .none }
      else
        { classification := .on_task
          confidence := 8/10
          reason := "Detected productive app"
          say := ""
          action := .none }
    else
      { classification := .unknown
        confidence := 5/10
        reason := "Ambiguous activity - staying vigilant"
        say := phrase "off_task_warning"
        action := .warn }

/-- Model of `ActivityJudge._track_activity_pattern`: append `app:classification` to
the rolling buffer, cap it at 20 by dropping the oldest entry, and update
the consecutive off-task counter. -/
def track_activity_pattern (st : JudgeState) (activity : ActivityEvent)
    (j : Judgment) : JudgeState :=
  let pattern_entry := activity.app ++ ":" ++ classification_str j.classification
  let pat := st.activity_pattern ++ [pattern_entry]
  let pat := if 20 < pat.length then pat.drop 1 else pat
  { activity_pattern := pat
    consecutive_off_task_count :=
      if j.classification = .off_task then st.consecutive_off_task_count + 1 else 0 }

/-- Python's `l[-n:]`: the last `min n l.length` elements of `l`. -/
def lastN (n : ℕ) (l : List α) : List α := l.drop (l.length - n)

/-- Model of `ActivityJudge.detect_goal_drift`: false with fewer than 5 buffer
entries, otherwise true when at least 6 of the last 10 entries contain the
substring `"off_task"`. -/
def detect_goal_drift (st : JudgeState) : Bool :=
  if st.activity_pattern.length < 5 then false
  else decide (6 ≤ (lastN 10 st.activity_pattern).countP (fun p => strContains p "off_task"))

/-- Python truthiness of the `Optional[float]` argument `last_yell_time` in
the guard `if judgment.action == "yell" and last_yell_time:` — `None` and
`0.0` are both falsy. -/
def yell_time_truthy : Option ℚ → Bool
  | none => false
  | some t => decide (t ≠ 0)

/-- Model of `ActivityJudge.judge` with `personality_manager = None` (its default).
Returns the judgment together with the judge's updated pattern state.
The AFK and thinking short-circuits return before the LLM call; on the
successful LLM path the pattern is tracked and the cooldown demotion is
applied; when the backend fails the rule-based fallback's judgment is
returned unchanged. -/
def judge (phrase : String → String) (st : JudgeState) (goal : String)
    (activity : ActivityEvent) (history : List ActivityEvent)
    (backend : BackendResult) (now : ℚ) (last_yell_time : Option ℚ)
    (cooldown_seconds : ℚ) : Judgment × JudgeState :=
  if activity.is_afk then
    ({ classification := .idle
       confidence := 1
       reason := "User is away from keyboard"
       say := ""
       action := .none }, st)
  else if activity.is_thinking then
    ({ classification := .thinking
       confidence := 8/10
       reason := "User appears to be thinking (idle " ++
         toString activity.idle_duration_seconds ++ "s in productive app)"
       say := phrase "thinking"
       action := .none }, st)
  else
    match backend with
    | .fail => (judge_fallback phrase goal activity, st)
    | .ok d =>
        let judgment := validate_judgment phrase d (activity.app ++ " " ++ activity.title)
        let st' := track_activity_pattern st activity judgment
        let judgment :=
          if judgment.action = .yell ∧ yell_time_truthy last_yell_time ∧
              now - (last_yell_time.getD 0) < cooldown_seconds then
            { judgment with action := .warn, say := phrase "off_task_warning" }
          else judgment
        (judgment, st')

/-- The counters of `models.SessionStats`.  The append-only logs
(`voice_notes`, `distraction_logs`, `phone_reports`, `annotations`) are not
read or written by the judging worker's stat update and are omitted. -/
structure SessionStats where
  focus_seconds : ℕ := 0
  idle_seconds : ℕ := 0
  off_task_seconds : ℕ := 0
  thinking_seconds : ℕ := 0
  distractions_count : ℕ := 0
  best_focus_streak_seconds : ℕ := 0
  current_focus_streak_seconds : ℕ := 0
  pomodoros_completed : ℕ := 0
deriving DecidableEq, Repr

/-- The per-interval stat update of `judge_worker_loop` in `controller.py`
(the `if current_judgment:` block): one `elif` chain keyed first on the
action, then on the classification. -/
def update_stats_for_judgment (judge_interval : ℕ) (j : Judgment)
    (st : SessionStats) : SessionStats :=
  if j.action = .warn ∨ j.action = .yell then
    { st with off_task_seconds := st.off_task_seconds + judge_interval }
  else if j.classification = .on_task then
    let cur := st.current_focus_streak_seconds + judge_interval
    { st with focus_seconds := st.focus_seconds + judge_interval
              current_focus_streak_seconds := cur
              best_focus_streak_seconds :=
                if st.best_focus_streak_seconds < cur then cur
                else st.best_focus_streak_seconds }
  else if j.classification = .thinking then
    let cur := st.current_focus_streak_seconds + judge_interval
    { st with thinking_seconds := st.thinking_seconds + judge_interval
              current_focus_streak_seconds := cur
              best_focus_streak_seconds :=
                if st.best_focus_streak_seconds < cur then cur
                else st.best_focus_streak_seconds }
  else if j.classification = .idle then
    { st with idle_seconds := st.idle_seconds + judge_interval
              current_focus_streak_seconds := 0 }
  else if j.classification = .off_task then
    { st with off_task_seconds := st.off_task_seconds + judge_interval
              current_focus_streak_seconds := 0 }
  else st

/-- A sequence of judging-worker stat updates (one `(interval, judgment)`
pair per worker iteration that had a current judgment). -/
def fold_stats (st : SessionStats) (l : List (ℕ × Judgment)) : SessionStats :=
  l.foldl (fun s p => update_stats_for_judgment p.1 p.2 s) st

/-- The four timer states of `models.PomodoroState.current_state`. -/
inductive PomState
  | stopped
  | work
  | short_break
  | long_break
deriving DecidableEq, Repr

/-- Model of `models.PomodoroState`, with the defaults of the dataclass. -/
structure PomodoroState where
  current_state : PomState := .stopped
  time_remaining_seconds : ℕ := 0
  work_duration_minutes : ℕ := 25
  short_break_minutes : ℕ := 5
  long_break_minutes : ℕ := 15
  pomodoros_completed : ℕ := 0
  pomodoros_until_long_break : ℕ := 4
  is_paused : Bool := false
deriving DecidableEq, Repr

/-- The `PomodoroTimer` state with `models.PomodoroState` defaults, as built
by `PomodoroTimer.__init__` with default arguments. -/
def initPom : PomodoroState := {}

/-- Zero-padded 2-digit rendering used by `get_display_time`'s `%02d`
(values below 100, the only ones reachable from minute/second fields). -/
def pad2 (n : ℕ) : String := if n < 10 then "0" ++ toString n else toString n

/-- Model of `models.PomodoroState.get_display_time`. -/
def get_display_time (s : PomodoroState) : String :=
  pad2 (s.time_remaining_seconds / 60) ++ ":" ++ pad2 (s.time_remaining_seconds % 60)

/-- Model of `PomodoroTimer.start_work` (state change only; callback and thread
start are external effects). -/
def start_work (s : PomodoroState) : PomodoroState :=
  { s with current_state := .work
           time_remaining_seconds := s.work_duration_minutes * 60
           is_paused := false }

/-- Model of `PomodoroTimer.start_short_break`. -/
def start_short_break (s : PomodoroState) : PomodoroState :=
  { s with current_state := .short_break
           time_remaining_seconds := s.short_break_minutes * 60
           is_paused := false }

/-- Model of `PomodoroTimer.start_long_break`. -/
def start_long_break (s : PomodoroState) : PomodoroState :=
  { s with current_state := .long_break
           time_remaining_seconds := s.long_break_minutes * 60
           is_paused := false }

/-- Model of `PomodoroTimer.pause`: only acts when not stopped (also sets the stop
event, which ends the tick thread — an external effect). -/
def pause (s : PomodoroState) : PomodoroState :=
  if s.current_state ≠ .stopped then { s with is_paused := true } else s

/-- Model of `PomodoroTimer.resume`: restarts the tick thread when paused and not
stopped. -/
def resume (s : PomodoroState) : PomodoroState :=
  if s.is_paused ∧ s.current_state ≠ .stopped then { s with is_paused := false } else s

/-- Model of `PomodoroTimer.stop`. -/
def stop (s : PomodoroState) : PomodoroState :=
  { s with current_state := .stopped
           time_remaining_seconds := 0
           is_paused := false }

/-- Model of `PomodoroTimer._complete_work`: increment the pomodoro count, then move
to a long break when the count is a multiple of
`pomodoros_until_long_break`, otherwise to a short break. -/
def complete_work (s : PomodoroState) : PomodoroState :=
  let s := { s with pomodoros_completed := s.pomodoros_completed + 1 }
  if s.pomodoros_completed % s.pomodoros_until_long_break = 0 then
    { s with current_state := .long_break
             time_remaining_seconds := s.long_break_minutes * 60 }
  else
    { s with current_state := .short_break
             time_remaining_seconds := s.short_break_minutes * 60 }

/-- Model of `PomodoroTimer._complete_break`: return to `stopped` (note: `is_paused`
is not cleared here). -/
def complete_break (s : PomodoroState) : PomodoroState :=
  { s with current_state := .stopped
           time_remaining_seconds := 0 }

/-- Model of `PomodoroTimer._handle_completion`. -/
def handle_completion (s : PomodoroState) : PomodoroState :=
  match s.current_state with
  | .work => complete_work s
  | .short_break => complete_break s
  | .long_break => complete_break s
  | .stopped => s

/-- Model of `PomodoroTimer.skip`. -/
def skip (s : PomodoroState) : PomodoroState :=
  match s.current_state with
  | .work => complete_work s
  | .short_break => complete_break s
  | .long_break => complete_break s
  | .stopped => s

/-- One iteration of the `_timer_loop` body: on zero remaining time handle
completion, otherwise decrement by one second. -/
def tick (s : PomodoroState) : PomodoroState :=
  if s.time_remaining_seconds ≤ 0 then handle_completion s
  else { s with time_remaining_seconds := s.time_remaining_seconds - 1 }

/-- Iterates the timer-loop body `n` times. -/
def tickN (n : ℕ) (s : PomodoroState) : PomodoroState := tick^[n] s

/-- One pass of `ReminderWorker.run`'s while-loop over the pending reminder
times at wall-clock time `t`: fire (in list order) every reminder whose
time has arrived, and keep the rest in order. -/
def reminder_fired (t : ℚ) (remaining : List ℚ) : List ℚ :=
  remaining.filter (fun r => decide (r ≤ t))

/-- The reminder times still pending after the pass at time `t`. -/
def reminder_rest (t : ℚ) (remaining : List ℚ) : List ℚ :=
  remaining.filter (fun r => !decide (r ≤ t))

/-- Model of `ReminderWorker.run` without a stop signal, observed at the successive
wall-clock times `ts` of its loop iterations: returns the times of the
fired `reminder_triggered` events (in emission order) and the reminder
times still pending when the modelled instants run out.  The loop breaks —
the worker terminates — as soon as the pending list becomes empty. -/
def reminder_run : List ℚ → List ℚ → List ℚ × List ℚ
  | _, [] => ([], [])
  | [], remaining => ([], remaining)
  | t :: ts, remaining =>
      let fired := reminder_fired t remaining
      let rest := reminder_rest t remaining
      if rest = [] then (fired, [])
      else
        let p := reminder_run ts rest
        (fired ++ p.1, p.2)

/-- The initial pending reminder times in `ReminderWorker.run`: session
start time plus each configured offset, sorted. -/
def reminder_times (start : ℚ) (intervals_sec : List ℚ) : List ℚ :=
  (intervals_sec.map (fun i => start + i)).insertionSort (· ≤ ·)

/-- Recording a sequence of `(app, classification)` pairs through
`track_activity_pattern`, which reads only the event's `app` and the
judgment's `classification` (the other event/judgment fields are filled
with fixed irrelevant values). -/
def record_judgments (st : JudgeState) (recs : List (String × Classification)) : JudgeState :=
  recs.foldl
    (fun s r => track_activity_pattern s { app := r.1, title := "" }
      { classification := r.2, confidence := 0, reason := "", say := "", action := .none })
    st

/-- The buffer entry produced for a recorded `(app, classification)` pair. -/
def pattern_entry (r : String × Classification) : String :=
  r.1 ++ ":" ++ classification_str r.2

/-- Componentwise order on the monotone counters of `SessionStats` — every
spec-named counter except `current_focus_streak_seconds`. -/
def statsCountersLE (a b : SessionStats) : Prop :=
  a.focus_seconds ≤ b.focus_seconds ∧
  a.idle_seconds ≤ b.idle_seconds ∧
  a.off_task_seconds ≤ b.off_task_seconds ∧
  a.thinking_seconds ≤ b.thinking_seconds ∧
  a.distractions_count ≤ b.distractions_count ∧
  a.best_focus_streak_seconds ≤ b.best_focus_streak_seconds ∧
  a.pomodoros_completed ≤ b.pomodoros_completed

/-! ## Theorems -/

/-- C3: for every `ActivityEvent` with `is_afk` true, `judge` returns
classification `idle`, confidence 1.0 and action `none`, for every goal
(including the empty one), every history, and every backend outcome — the
AFK branch returns before the backend is consulted, so the result does not
depend on it. -/
theorem judge_afk_short_circuit (phrase : String → String) (st : JudgeState)
    (goal : String) (activity : ActivityEvent) (history : List ActivityEvent)
    (backend : BackendResult) (now : ℚ) (last_yell_time : Option ℚ)
    (cooldown_seconds : ℚ) (h : activity.is_afk = true) :
    (judge phrase st goal activity history backend now last_yell_time cooldown_seconds).1.classification = Classification.idle ∧
    (judge phrase st goal activity history backend now last_yell_time cooldown_seconds).1.confidence = 1 ∧
    (judge phrase st goal activity history backend now last_yell_time cooldown_seconds).1.action = CSAction.none := by
  simp [judge, h]

/-- Closed instance of the C3 theorem at a concrete AFK event, empty goal,
and a backend that would have said `on_task`. -/
theorem judge_afk_short_circuit_witness :
    (judge (fun _ => "") initJudgeState "" { app := "x", title := "y", is_afk := true } []
      (.ok { classification := some "on_task" }) 0 none 30).1.classification = Classification.idle ∧
    (judge (fun _ => "") initJudgeState "" { app := "x", title := "y", is_afk := true } []
      (.ok { classification := some "on_task" }) 0 none 30).1.confidence = 1 ∧
    (judge (fun _ => "") initJudgeState "" { app := "x", title := "y", is_afk := true } []
      (.ok { classification := some "on_task" }) 0 none 30).1.action = CSAction.none :=
  judge_afk_short_circuit (fun _ => "") initJudgeState ""
    { app := "x", title := "y", is_afk := true } []
    (.ok { classification := some "on_task" }) 0 none 30 rfl

/-- C10: the activity-pattern state of the judge is unchanged by the AFK
short-circuit, by the thinking short-circuit, and by the fallback path taken
when the backend fails; only the successful LLM path mutates it. -/
theorem judge_pattern_frame (phrase : String → String) (st : JudgeState)
    (goal : String) (activity : ActivityEvent) (history : List ActivityEvent)
    (backend : BackendResult) (now : ℚ) (last_yell_time : Option ℚ)
    (cooldown_seconds : ℚ)
    (h : activity.is_afk = true ∨ activity.is_thinking = true ∨ backend = BackendResult.fail) :
    (judge phrase st goal activity history backend now last_yell_time cooldown_seconds).2 = st := by
  rcases h with h | h | h
  · simp [judge, h]
  · cases hafk : activity.is_afk <;> simp [judge, hafk, h]
  · subst h
    cases hafk : activity.is_afk <;> cases hth : activity.is_thinking <;>
      simp [judge, hafk, hth]

/-- Closed instance of the C10 theorem: a backend failure on a non-AFK,
non-thinking activity leaves a nonempty pattern state untouched. -/
theorem judge_pattern_frame_witness :
    (judge (fun _ => "") { activity_pattern := ["a:on_task"], consecutive_off_task_count := 0 }
      "g" { app := "YouTube", title := "Home" } [] .fail 100 none 30).2 =
      { activity_pattern := ["a:on_task"], consecutive_off_task_count := 0 } :=
  judge_pattern_frame (fun _ => "")
    { activity_pattern := ["a:on_task"], consecutive_off_task_count := 0 }
    "g" { app := "YouTube", title := "Home" } [] .fail 100 none 30 (Or.inr (Or.inr rfl))

/-- C4: in the judging worker's per-interval stat update, a judgment whose
action is `warn` or `yell` adds the judge interval to `off_task_seconds`
and leaves `focus_seconds` unchanged, whatever the classification is. -/
theorem warn_yell_counts_off_task (judge_interval : ℕ) (j : Judgment)
    (st : SessionStats) (h : j.action = CSAction.warn ∨ j.action = CSAction.yell) :
    (update_stats_for_judgment judge_interval j st).off_task_seconds =
      st.off_task_seconds + judge_interval ∧
    (update_stats_for_judgment judge_interval j st).focus_seconds = st.focus_seconds := by
  unfold update_stats_for_judgment
  rw [if_pos h]
  exact ⟨rfl, rfl⟩

/-- Closed instance of the C4 theorem: a `warn` action with classification
`unknown` still counts toward off-task time and not focus time. -/
theorem warn_yell_counts_off_task_witness :
    (update_stats_for_judgment 10
      { classification := .unknown, confidence := 1, reason := "", say := "", action := .warn }
      {}).off_task_seconds = SessionStats.off_task_seconds {} + 10 ∧
    (update_stats_for_judgment 10
      { classification := .unknown, confidence := 1, reason := "", say := "", action := .warn }
      {}).focus_seconds = SessionStats.focus_seconds {} :=
  warn_yell_counts_off_task 10
    { classification := .unknown, confidence := 1, reason := "", say := "", action := .warn }
    {} (Or.inl rfl)

/-- Monotonicity of a single judging-worker stat update on every counter
except the current focus streak. -/
theorem update_stats_counters_mono (i : ℕ) (j : Judgment) (st : SessionStats) :
    statsCountersLE st (update_stats_for_judgment i j st) := by
  unfold statsCountersLE update_stats_for_judgment
  repeat' split
  all_goals simp_all
  all_goals repeat' split
  all_goals omega

/-- C5 counterexample: `current_focus_streak_seconds` decreases across the
judging worker's stat updates — an `on_task` update raises it to 10, and the
following `idle` update resets it to 0. -/
theorem stats_counter_decrease_counterexample :
    (update_stats_for_judgment 10
        { classification := .idle, confidence := 1, reason := "", say := "", action := .none }
        (update_stats_for_judgment 10
          { classification := .on_task, confidence := 1, reason := "", say := "", action := .none }
          {})).current_focus_streak_seconds <
      (update_stats_for_judgment 10
        { classification := .on_task, confidence := 1, reason := "", say := "", action := .none }
        {}).current_focus_streak_seconds := by
  decide

/-- C5 (amended): every spec-named `SessionStats` counter except
`current_focus_streak_seconds` — focus, idle, off-task and thinking
seconds, distraction count, best focus-streak seconds, pomodoros completed
— never decreases across any sequence of the judging worker's stat
updates; the current focus streak is reset to 0 by an update whose
classification is `idle` or `off_task` (with action not `warn`/`yell`), so
it can decrease. -/
theorem stats_counters_monotone (st : SessionStats) (l : List (ℕ × Judgment)) :
    statsCountersLE st (fold_stats st l) := by
  induction l generalizing st with
  | nil =>
      unfold statsCountersLE
      exact ⟨le_refl _, le_refl _, le_refl _, le_refl _, le_refl _, le_refl _, le_refl _⟩
  | cons p l ih =>
      have h1 := update_stats_counters_mono p.1 p.2 st
      have h2 := ih (update_stats_for_judgment p.1 p.2 st)
      have hfold : fold_stats st (p :: l) = fold_stats (update_stats_for_judgment p.1 p.2 st) l := rfl
      rw [hfold]
      obtain ⟨a1, a2, a3, a4, a5, a6, a7⟩ := h1
      obtain ⟨b1, b2, b3, b4, b5, b6, b7⟩ := h2
      exact ⟨le_trans a1 b1, le_trans a2 b2, le_trans a3 b3, le_trans a4 b4,
        le_trans a5 b5, le_trans a6 b6, le_trans a7 b7⟩

/-- An activity context `app ++ " " ++ title` is never the empty string, so
the `if activity_context:` guard in `_validate_judgment` always passes on
the call from `_judge_with_llm`. -/
theorem append_space_ne_empty (a b : String) : a ++ " " ++ b ≠ "" := by
  intro h
  have hd := congrArg String.data h
  rw [String.data_append, String.data_append] at hd
  simp at hd

/-- Reduction of `judge` on the successful-LLM path for a non-AFK,
non-thinking activity. -/
theorem judge_ok_eq (phrase : String → String) (st : JudgeState) (goal : String)
    (activity : ActivityEvent) (history : List ActivityEvent) (d : JudgmentDict)
    (now : ℚ) (last_yell_time : Option ℚ) (cooldown_seconds : ℚ)
    (hafk : activity.is_afk = false) (hth : activity.is_thinking = false) :
    judge phrase st goal activity history (.ok d) now last_yell_time cooldown_seconds =
      (if (validate_judgment phrase d (activity.app ++ " " ++ activity.title)).action = CSAction.yell ∧
          yell_time_truthy last_yell_time ∧ now - last_yell_time.getD 0 < cooldown_seconds then
        { validate_judgment phrase d (activity.app ++ " " ++ activity.title) with
            action := CSAction.warn, say := phrase "off_task_warning" }
      else validate_judgment phrase d (activity.app ++ " " ++ activity.title),
      track_activity_pattern st activity
        (validate_judgment phrase d (activity.app ++ " " ++ activity.title))) := by
  simp [judge, hafk, hth]

/-- The distraction override inside `_validate_judgment`: with a nonempty
context that matches some distraction keyword and a sanitized
classification that is not already `off_task`, the validated judgment is
forced to `off_task`, confidence 0.95, action `yell`. -/
theorem validate_judgment_override (phrase : String → String) (d : JudgmentDict)
    (ctx : String) (hctx : ctx ≠ "")
    (hkw : (DISTRACTION_KEYWORDS.find? (fun kw => strContains (strLower ctx) kw)).isSome = true)
    (hcls : classification_of_string (d.classification.getD "unknown") ≠ Classification.off_task) :
    (validate_judgment phrase d ctx).classification = Classification.off_task ∧
    (validate_judgment phrase d ctx).confidence = 95/100 ∧
    (validate_judgment phrase d ctx).action = CSAction.yell := by
  obtain ⟨kw, hfind⟩ := Option.isSome_iff_exists.mp hkw
  have hbase : (validate_base d).classification ≠ Classification.off_task := hcls
  unfold validate_judgment fill_empty_say apply_distraction_override
  rw [if_pos hctx]
  simp only [hfind]
  rw [if_pos hbase]
  split <;> exact ⟨rfl, rfl, rfl⟩

/-- C1 counterexample: a backend failure on a distraction activity inside
the cooldown window.  The rule-based fallback computes action `yell` and
`judge` returns it unchanged, even though only 1 second (< 30) has elapsed
since `last_yell_time` — the cooldown demotion is applied only on the
successful LLM path. -/
theorem cooldown_fallback_counterexample :
    ((100 : ℚ) - 99 < 30) ∧
    (judge (fun _ => "") initJudgeState "write code"
      { app := "YouTube", title := "Home" } [] .fail 100 (some 99) 30).1.action = CSAction.yell :=
  ⟨by norm_num, rfl⟩

/-- C1 (amended): the cooldown demotion holds on the successful LLM path —
whenever the validated judgment's action is `yell`, `last_yell_time` is set
and nonzero (Python truthiness), and less than `cooldown_seconds` has
elapsed, the returned action is `warn`; judgments produced by the
rule-based fallback after a backend failure are returned without the
cooldown check. -/
theorem cooldown_llm_path (phrase : String → String) (st : JudgeState)
    (goal : String) (activity : ActivityEvent) (history : List ActivityEvent)
    (d : JudgmentDict) (now t cooldown_seconds : ℚ)
    (hafk : activity.is_afk = false) (hth : activity.is_thinking = false)
    (hy : (validate_judgment phrase d (activity.app ++ " " ++ activity.title)).action = CSAction.yell)
    (ht : t ≠ 0) (hcd : now - t < cooldown_seconds) :
    (judge phrase st goal activity history (.ok d) now (some t) cooldown_seconds).1.action = CSAction.warn := by
  rw [judge_ok_eq phrase st goal activity history d now (some t) cooldown_seconds hafk hth]
  rw [if_pos ⟨hy, by simp [yell_time_truthy, ht], by simpa using hcd⟩]

/-- Closed instance of the C1 amended theorem: an LLM `yell` on a
productive-looking activity 1 second after the previous yell is demoted to
`warn`. -/
theorem cooldown_llm_path_witness :
    (judge (fun _ => "") initJudgeState "write code" { app := "Cursor", title := "main.py" } []
      (.ok { classification := some "on_task", action := some "yell" }) 100 (some 99) 30).1.action = CSAction.warn :=
  cooldown_llm_path (fun _ => "") initJudgeState "write code"
    { app := "Cursor", title := "main.py" } []
    { classification := some "on_task", action := some "yell" } 100 99 30
    rfl rfl rfl (by norm_num) (by norm_num)

/-- C2 counterexample: the activity "YouTube — Home" contains the
distraction keyword "youtube", but when the backend itself answers
`off_task` with confidence 0.3 and action `none`, the override's
`if classification != "off_task"` guard skips, and `judge` returns
confidence 0.3 < 0.9 and an action that is not `yell`. -/
theorem keyword_override_counterexample :
    strContains (strLower ("YouTube" ++ " " ++ "Home")) "youtube" = true ∧
    (judge (fun _ => "") initJudgeState "g" { app := "YouTube", title := "Home" } []
      (.ok { classification := some "off_task", confidence := some (3/10), action := some "none" })
      100 none 30).1.confidence < 9/10 ∧
    (judge (fun _ => "") initJudgeState "g" { app := "YouTube", title := "Home" } []
      (.ok { classification := some "off_task", confidence := some (3/10), action := some "none" })
      100 none 30).1.action ≠ CSAction.yell := by
  have h : (judge (fun _ => "") initJudgeState "g" { app := "YouTube", title := "Home" } []
      (.ok { classification := some "off_task", confidence := some (3/10), action := some "none" })
      100 none 30).1.confidence = max 0 (min 1 ((3 : ℚ)/10)) := rfl
  refine ⟨rfl, ?_, by intro hc; exact absurd hc (by decide)⟩
  rw [h]
  rw [min_eq_right (by norm_num : (3 : ℚ)/10 ≤ 1), max_eq_right (by norm_num : (0 : ℚ) ≤ 3/10)]
  norm_num

/-- C2 (amended): for every non-AFK, non-thinking activity whose context
matches a configured distraction keyword, if the backend's sanitized
classification is not already `off_task`, `judge` returns classification
`off_task` with confidence 0.95 ≥ 0.9 and action `yell` — except that the
cooldown suppression may demote the action to `warn`.  When the backend
already answers `off_task`, its (sanitized) confidence and action are kept
as-is, so no bound holds in that case. -/
theorem keyword_override_forces_off_task (phrase : String → String) (st : JudgeState)
    (goal : String) (activity : ActivityEvent) (history : List ActivityEvent)
    (d : JudgmentDict) (now : ℚ) (last_yell_time : Option ℚ) (cooldown_seconds : ℚ)
    (hafk : activity.is_afk = false) (hth : activity.is_thinking = false)
    (hkw : (DISTRACTION_KEYWORDS.find?
      (fun kw => strContains (strLower (activity.app ++ " " ++ activity.title)) kw)).isSome = true)
    (hcls : classification_of_string (d.classification.getD "unknown") ≠ Classification.off_task) :
    (judge phrase st goal activity history (.ok d) now last_yell_time cooldown_seconds).1.classification = Classification.off_task ∧
    9/10 ≤ (judge phrase st goal activity history (.ok d) now last_yell_time cooldown_seconds).1.confidence ∧
    ((judge phrase st goal activity history (.ok d) now last_yell_time cooldown_seconds).1.action = CSAction.yell ∨
      ((judge phrase st goal activity history (.ok d) now last_yell_time cooldown_seconds).1.action = CSAction.warn ∧
        yell_time_truthy last_yell_time = true ∧
        now - last_yell_time.getD 0 < cooldown_seconds)) := by
  obtain ⟨hv1, hv2, hv3⟩ := validate_judgment_override phrase d
    (activity.app ++ " " ++ activity.title)
    (append_space_ne_empty activity.app activity.title) hkw hcls
  rw [judge_ok_eq phrase st goal activity history d now last_yell_time cooldown_seconds hafk hth]
  split
  · rename_i hcond
    refine ⟨hv1, by rw [hv2]; norm_num, Or.inr ⟨rfl, hcond.2.1, hcond.2.2⟩⟩
  · exact ⟨hv1, by rw [hv2]; norm_num, Or.inl hv3⟩

/-- Closed instance of the C2 amended theorem: the backend answers
`on_task` on a YouTube activity with no cooldown pending; `judge` forces
`off_task`, confidence 0.95, action `yell`. -/
theorem keyword_override_forces_off_task_witness :
    (judge (fun _ => "") initJudgeState "g" { app := "YouTube", title := "Home" } []
      (.ok { classification := some "on_task", confidence := some (9/10), action := some "none" })
      100 none 30).1.classification = Classification.off_task ∧
    9/10 ≤ (judge (fun _ => "") initJudgeState "g" { app := "YouTube", title := "Home" } []
      (.ok { classification := some "on_task", confidence := some (9/10), action := some "none" })
      100 none 30).1.confidence ∧
    ((judge (fun _ => "") initJudgeState "g" { app := "YouTube", title := "Home" } []
      (.ok { classification := some "on_task", confidence := some (9/10), action := some "none" })
      100 none 30).1.action = CSAction.yell ∨
      ((judge (fun _ => "") initJudgeState "g" { app := "YouTube", title := "Home" } []
        (.ok { classification := some "on_task", confidence := some (9/10), action := some "none" })
        100 none 30).1.action = CSAction.warn ∧
        yell_time_truthy none = true ∧
        (100 : ℚ) - (Option.getD none 0) < 30)) :=
  keyword_override_forces_off_task (fun _ => "") initJudgeState "g"
    { app := "YouTube", title := "Home" } []
    { classification := some "on_task", confidence := some (9/10), action := some "none" }
    100 none 30 rfl rfl (by decide) (by decide)

/-- As long as at least `n` seconds remain, `n` timer-loop iterations only
decrement the remaining time; no completion fires. -/
theorem tickN_decrements (n : ℕ) (s : PomodoroState)
    (h : n ≤ s.time_remaining_seconds) :
    tickN n s = { s with time_remaining_seconds := s.time_remaining_seconds - n } := by
  induction n generalizing s with
  | zero =>
      show s = _
      cases s
      simp
  | succ n ih =>
      have htick : tick s = { s with time_remaining_seconds := s.time_remaining_seconds - 1 } := by
        unfold tick
        rw [if_neg (by omega)]
      have : tickN (n + 1) s = tickN n (tick s) := by
        unfold tickN
        rw [Function.iterate_succ_apply]
      rw [this, htick, ih _ (by simp; omega)]
      congr 1
      simp
      omega

/-- Completing a work period increments the pomodoro count by exactly 1. -/
theorem complete_work_pomodoros (s : PomodoroState) :
    (complete_work s).pomodoros_completed = s.pomodoros_completed + 1 := by
  simp only [complete_work]
  split <;> rfl

/-- Completing a work period moves to a long break exactly when the new
pomodoro count is a multiple of `pomodoros_until_long_break`. -/
theorem complete_work_state (s : PomodoroState) :
    (complete_work s).current_state =
      (if (s.pomodoros_completed + 1) % s.pomodoros_until_long_break = 0 then PomState.long_break
       else PomState.short_break) := by
  simp only [complete_work]
  split <;> rename_i h <;> simp_all

/-- Completing a work period loads the configured break duration. -/
theorem complete_work_time (s : PomodoroState) :
    (complete_work s).time_remaining_seconds =
      (if (s.pomodoros_completed + 1) % s.pomodoros_until_long_break = 0 then s.long_break_minutes * 60
       else s.short_break_minutes * 60) := by
  simp only [complete_work]
  split <;> rename_i h <;> simp_all

/-- C6 counterexample: with the default configuration, after exactly
`work_duration_minutes * 60 = 1500` iterations of the timer-loop body the
state is still `work` (with 0 seconds remaining) and no pomodoro has been
counted; the completion only runs at the top of the following iteration. -/
theorem pomodoro_ticks_counterexample :
    (tickN 1500 (start_work initPom)).current_state ≠ PomState.short_break ∧
    (tickN 1500 (start_work initPom)).current_state ≠ PomState.long_break ∧
    (tickN 1500 (start_work initPom)).pomodoros_completed = initPom.pomodoros_completed := by
  have h : tickN 1500 (start_work initPom) =
      { start_work initPom with time_remaining_seconds := (start_work initPom).time_remaining_seconds - 1500 } :=
    tickN_decrements 1500 (start_work initPom) (by decide)
  rw [h]
  exact ⟨by decide, by decide, rfl⟩

/-- C6 (amended): from `start_work` with the default configuration,
`get_display_time` returns "25:00"; after exactly `work_duration_minutes *
60` timer-loop iterations the state is still `work` with 0 remaining, and
after one further iteration (which runs `_handle_completion`) the state is
`short_break` — or `long_break` when `pomodoros_completed` becomes a
multiple of `pomodoros_until_long_break` — and `pomodoros_completed` has
increased by exactly 1. -/
theorem pomodoro_work_completion (s : PomodoroState)
    (hw : s.work_duration_minutes = 25) (hsb : s.short_break_minutes = 5)
    (hlb : s.long_break_minutes = 15) (hn : s.pomodoros_until_long_break = 4) :
    get_display_time (start_work s) = "25:00" ∧
    (tickN 1500 (start_work s)).current_state = PomState.work ∧
    (tickN 1501 (start_work s)).pomodoros_completed = s.pomodoros_completed + 1 ∧
    (tickN 1501 (start_work s)).current_state =
      (if (s.pomodoros_completed + 1) % 4 = 0 then PomState.long_break
       else PomState.short_break) ∧
    (tickN 1501 (start_work s)).time_remaining_seconds =
      (if (s.pomodoros_completed + 1) % 4 = 0 then 15 * 60 else 5 * 60) := by
  have htime : (start_work s).time_remaining_seconds = 1500 := by
    show s.work_duration_minutes * 60 = 1500
    rw [hw]
  have h1500 : tickN 1500 (start_work s) =
      { start_work s with time_remaining_seconds := (start_work s).time_remaining_seconds - 1500 } :=
    tickN_decrements 1500 (start_work s) (by rw [htime])
  have h1501 : tickN 1501 (start_work s) = tick (tickN 1500 (start_work s)) := by
    unfold tickN
    rw [Function.iterate_succ_apply']
  have hcompl : tick (tickN 1500 (start_work s)) = complete_work (tickN 1500 (start_work s)) := by
    rw [h1500]
    unfold tick
    rw [if_pos (by simp [htime])]
    rfl
  have hp : (tickN 1500 (start_work s)).pomodoros_completed = s.pomodoros_completed := by
    rw [h1500]; rfl
  have hu : (tickN 1500 (start_work s)).pomodoros_until_long_break = 4 := by
    rw [h1500]; exact hn
  have hs5 : (tickN 1500 (start_work s)).short_break_minutes = 5 := by
    rw [h1500]; exact hsb
  have hl15 : (tickN 1500 (start_work s)).long_break_minutes = 15 := by
    rw [h1500]; exact hlb
  refine ⟨?_, ?_, ?_, ?_, ?_⟩
  · unfold get_display_time
    rw [htime]
    decide
  · rw [h1500]; rfl
  · rw [h1501, hcompl, complete_work_pomodoros, hp]
  · rw [h1501, hcompl, complete_work_state, hp, hu]
  · rw [h1501, hcompl, complete_work_time, hp, hu, hs5, hl15]

/-- Closed instance of the C6 amended theorem at the default timer. -/
theorem pomodoro_work_completion_witness :
    get_display_time (start_work initPom) = "25:00" ∧
    (tickN 1500 (start_work initPom)).current_state = PomState.work ∧
    (tickN 1501 (start_work initPom)).pomodoros_completed = initPom.pomodoros_completed + 1 ∧
    (tickN 1501 (start_work initPom)).current_state =
      (if (initPom.pomodoros_completed + 1) % 4 = 0 then PomState.long_break
       else PomState.short_break) ∧
    (tickN 1501 (start_work initPom)).time_remaining_seconds =
      (if (initPom.pomodoros_completed + 1) % 4 = 0 then 15 * 60 else 5 * 60) :=
  pomodoro_work_completion initPom rfl rfl rfl rfl

/-- C7 counterexample: in the `stopped` state `pause` is a no-op, so two
pauses leave `is_paused = false`, not true; and the reachable stopped state
obtained by pausing a short break and then skipping it still has
`is_paused = true`, so `stop` on that already-stopped timer is not a no-op
(it clears `is_paused`). -/
theorem pause_stop_counterexample :
    (pause (pause initPom)).is_paused = false ∧
    (skip (pause (start_short_break initPom))).current_state = PomState.stopped ∧
    stop (skip (pause (start_short_break initPom))) ≠ skip (pause (start_short_break initPom)) := by
  decide

/-- C7 (amended): for every non-stopped timer state, calling `pause` twice
in a row leaves `is_paused` true and `time_remaining_seconds` equal to its
value after the first pause; in the `stopped` state `pause` is a no-op.
`stop` when already stopped is a no-op exactly on stopped states with
`time_remaining_seconds = 0` and `is_paused = false` — which covers every
stopped state except those produced by `skip`ping a paused break, where
`stop` additionally clears `is_paused`. -/
theorem pause_idempotent_stop_noop (s : PomodoroState) :
    (s.current_state = PomState.stopped → pause s = s) ∧
    (s.current_state ≠ PomState.stopped →
      (pause (pause s)).is_paused = true ∧
      (pause (pause s)).time_remaining_seconds = (pause s).time_remaining_seconds) ∧
    (s.current_state = PomState.stopped → s.time_remaining_seconds = 0 →
      s.is_paused = false → stop s = s) := by
  refine ⟨?_, ?_, ?_⟩
  · intro h
    simp [pause, h]
  · intro h
    simp [pause, h]
  · intro h1 h2 h3
    cases s
    simp_all [stop]

/-- Closed instances of the C7 amended theorem: double-pausing a running
work timer, and stopping the freshly initialized (stopped) timer. -/
theorem pause_idempotent_stop_noop_witness :
    ((pause (pause (start_work initPom))).is_paused = true ∧
      (pause (pause (start_work initPom))).time_remaining_seconds =
        (pause (start_work initPom)).time_remaining_seconds) ∧
    stop initPom = initPom :=
  ⟨(pause_idempotent_stop_noop (start_work initPom)).2.1 (by decide),
   (pause_idempotent_stop_noop initPom).2.2 rfl rfl rfl⟩

/-- With no reminders pending, the worker loop fires nothing and breaks. -/
theorem reminder_run_nil (ts : List ℚ) : reminder_run ts [] = ([], []) := by
  cases ts <;> rfl

/-- When some modelled loop instant is late enough to cover every pending
reminder time, the worker fires a permutation of the pending list — each
pending entry exactly once — and ends with nothing pending. -/
theorem reminder_run_fires_all (ts : List ℚ) : ∀ rem : List ℚ,
    (∃ t ∈ ts, ∀ r ∈ rem, r ≤ t) →
    (reminder_run ts rem).1.Perm rem ∧ (reminder_run ts rem).2 = [] := by
  induction ts with
  | nil =>
      intro rem h
      obtain ⟨t, ht, _⟩ := h
      simp at ht
  | cons t ts ih =>
      intro rem h
      cases rem with
      | nil =>
          rw [reminder_run_nil]
          exact ⟨List.Perm.refl _, rfl⟩
      | cons x xs =>
          have hstep : reminder_run (t :: ts) (x :: xs) =
              (if reminder_rest t (x :: xs) = [] then (reminder_fired t (x :: xs), [])
               else (reminder_fired t (x :: xs) ++ (reminder_run ts (reminder_rest t (x :: xs))).1,
                     (reminder_run ts (reminder_rest t (x :: xs))).2)) := rfl
          rw [hstep]
          by_cases hrest : reminder_rest t (x :: xs) = []
          · rw [if_pos hrest]
            refine ⟨?_, rfl⟩
            have hfired : reminder_fired t (x :: xs) = x :: xs := by
              unfold reminder_fired
              apply List.filter_eq_self.mpr
              intro a ha
              by_contra hc
              have hmem : a ∈ reminder_rest t (x :: xs) := by
                unfold reminder_rest
                exact List.mem_filter.mpr ⟨ha, by simpa using hc⟩
              rw [hrest] at hmem
              simp at hmem
            rw [hfired]
          · rw [if_neg hrest]
            obtain ⟨t0, ht0, hall⟩ := h
            have ht0' : t0 ∈ ts := by
              rcases List.mem_cons.mp ht0 with h1 | h1
              · exfalso
                apply hrest
                subst h1
                unfold reminder_rest
                apply List.filter_eq_nil_iff.mpr
                intro a ha
                simp [hall a ha]
              · exact h1
            obtain ⟨hperm, hnil⟩ := ih (reminder_rest t (x :: xs))
              ⟨t0, ht0', fun r hr => hall r (List.mem_of_mem_filter hr)⟩
            refine ⟨?_, hnil⟩
            have hp1 : (reminder_fired t (x :: xs) ++ (reminder_run ts (reminder_rest t (x :: xs))).1).Perm
                (reminder_fired t (x :: xs) ++ reminder_rest t (x :: xs)) :=
              List.Perm.append_left _ hperm
            have hp2 : (reminder_fired t (x :: xs) ++ reminder_rest t (x :: xs)).Perm (x :: xs) := by
              unfold reminder_fired reminder_rest
              exact List.filter_append_perm _ _
            exact hp1.trans hp2

/-- C9: given any finite list of reminder offsets, in the absence of a stop
signal — modelled by loop instants `ts` that eventually pass the last
reminder time — the worker emits exactly one `reminder_triggered` event per
offset in the list (the fired times are a permutation of the scheduled
times, so no offset entry ever fires twice) and then terminates with an
empty pending list. -/
theorem reminders_fire_once (start : ℚ) (intervals_sec : List ℚ) (ts : List ℚ)
    (h : ∃ t ∈ ts, ∀ i ∈ intervals_sec, start + i ≤ t) :
    (reminder_run ts (reminder_times start intervals_sec)).1.Perm
      (intervals_sec.map (fun i => start + i)) ∧
    (reminder_run ts (reminder_times start intervals_sec)).2 = [] := by
  have hperm0 : (reminder_times start intervals_sec).Perm
      (intervals_sec.map (fun i => start + i)) :=
    List.perm_insertionSort _ _
  have h' : ∃ t ∈ ts, ∀ r ∈ reminder_times start intervals_sec, r ≤ t := by
    obtain ⟨t, ht, hall⟩ := h
    refine ⟨t, ht, fun r hr => ?_⟩
    obtain ⟨i, hi, rfl⟩ := List.mem_map.mp (hperm0.mem_iff.mp hr)
    exact hall i hi
  obtain ⟨h1, h2⟩ := reminder_run_fires_all ts _ h'
  exact ⟨h1.trans hperm0, h2⟩

/-- Closed instance of the C9 theorem: offsets 5 and 3 from start 0, with
loop instants 1, 4, 6; both reminders fire exactly once and the worker
terminates. -/
theorem reminders_fire_once_witness :
    (reminder_run [1, 4, 6] (reminder_times 0 [5, 3])).1.Perm
      ([5, 3].map (fun i => (0 : ℚ) + i)) ∧
    (reminder_run [1, 4, 6] (reminder_times 0 [5, 3])).2 = [] :=
  reminders_fire_once 0 [5, 3] [1, 4, 6]
    ⟨6, by simp, by intro i hi; fin_cases hi <;> norm_num⟩

/-! ### List lemmas for the rolling buffer (`lastN` is Python's `l[-n:]`). -/

theorem lastN_of_le {l : List α} {n : ℕ} (h : l.length ≤ n) : lastN n l = l := by
  unfold lastN
  rw [Nat.sub_eq_zero_of_le h, List.drop_zero]

theorem length_lastN (n : ℕ) (l : List α) : (lastN n l).length = min l.length n := by
  unfold lastN
  rw [List.length_drop]
  omega

theorem lastN_lastN (m n : ℕ) (l : List α) : lastN m (lastN n l) = lastN (min m n) l := by
  unfold lastN
  rw [List.length_drop, List.drop_drop]
  congr 1
  omega

theorem lastN_append_left {m : List α} (l : List α) (n : ℕ) (h : m.length ≤ n) :
    lastN n (l ++ m) = lastN (n - m.length) l ++ m := by
  unfold lastN
  rw [List.length_append]
  have he : l.length + m.length - n = l.length - (n - m.length) := by omega
  rw [he, List.drop_append_of_le_length (by omega)]

theorem lastN_append_right {m : List α} (l : List α) (n : ℕ) (h : n ≤ m.length) :
    lastN n (l ++ m) = lastN n m := by
  unfold lastN
  rw [List.length_append]
  have he : l.length + m.length - n = l.length + (m.length - n) := by omega
  rw [he, ← List.drop_drop, List.drop_left]

theorem lastN_append_cancel (l m : List α) (n : ℕ) :
    lastN n (lastN n l ++ m) = lastN n (l ++ m) := by
  by_cases h : m.length ≤ n
  · rw [lastN_append_left _ _ h, lastN_append_left _ _ h, lastN_lastN,
      min_eq_left (by omega)]
  · push_neg at h
    rw [lastN_append_right _ _ (by omega), lastN_append_right _ _ (by omega)]

theorem lastN_map (f : α → β) (l : List α) (n : ℕ) :
    lastN n (l.map f) = (lastN n l).map f := by
  unfold lastN
  rw [List.length_map, List.map_drop]

theorem mem_of_mem_lastN {a : α} {l : List α} {n : ℕ} (h : a ∈ lastN n l) : a ∈ l :=
  List.drop_subset _ _ h

/-! ### The pattern buffer produced by a record history. -/

/-- One `_track_activity_pattern` call keeps exactly the last 20 entries of
the extended buffer. -/
theorem track_pattern_eq (st : JudgeState) (a : ActivityEvent) (j : Judgment)
    (h : st.activity_pattern.length ≤ 20) :
    (track_activity_pattern st a j).activity_pattern =
      lastN 20 (st.activity_pattern ++ [a.app ++ ":" ++ classification_str j.classification]) := by
  simp only [track_activity_pattern]
  split <;> rename_i hlen
  · unfold lastN
    congr 1
    rw [List.length_append] at hlen ⊢
    simp at hlen ⊢
    omega
  · rw [lastN_of_le (Nat.le_of_not_lt hlen)]

/-- The buffer after recording a history of `(app, classification)` pairs
is exactly the last 20 entries of the full entry sequence. -/
theorem record_judgments_pattern (recs : List (String × Classification)) :
    ∀ st : JudgeState, st.activity_pattern.length ≤ 20 →
    (record_judgments st recs).activity_pattern =
      lastN 20 (st.activity_pattern ++ recs.map pattern_entry) := by
  induction recs with
  | nil =>
      intro st h
      show st.activity_pattern = _
      rw [List.map_nil, List.append_nil, lastN_of_le h]
  | cons r rs ih =>
      intro st h
      have hstep : record_judgments st (r :: rs) = record_judgments
          (track_activity_pattern st { app := r.1, title := "" }
            { classification := r.2, confidence := 0, reason := "", say := "", action := .none }) rs := rfl
      have htr := track_pattern_eq st { app := r.1, title := "" }
        { classification := r.2, confidence := 0, reason := "", say := "", action := .none } h
      have hlen : (track_activity_pattern st { app := r.1, title := "" }
          { classification := r.2, confidence := 0, reason := "", say := "", action := .none }).activity_pattern.length ≤ 20 := by
        rw [htr, length_lastN]
        omega
      rw [hstep, ih _ hlen, htr, lastN_append_cancel]
      congr 1
      rw [List.append_assoc]
      rfl

/-! ### Substring containment in a `app:classification` entry. -/

/-- A pattern that avoids the separator character and is a prefix of
`a ++ c :: b` is already a prefix of `a`. -/
theorem sub_before_sep {c : α} : ∀ (a : List α) {pat b : List α},
    c ∉ pat → pat <+: a ++ c :: b → pat <+: a := by
  intro a
  induction a with
  | nil =>
      intro pat b hc hp
      cases pat with
      | nil => exact List.nil_prefix
      | cons p ps =>
          obtain ⟨h1, _⟩ := List.cons_prefix_cons.mp hp
          exact absurd (h1 ▸ List.mem_cons_self p ps) hc
  | cons x a ih =>
      intro pat b hc hp
      cases pat with
      | nil => exact List.nil_prefix
      | cons p ps =>
          obtain ⟨h1, h2⟩ := List.cons_prefix_cons.mp hp
          have hps := ih (fun hm => hc (List.mem_cons_of_mem p hm)) h2
          exact List.cons_prefix_cons.mpr ⟨h1, hps⟩

/-- A pattern that avoids the separator character and occurs inside
`a ++ c :: b` occurs entirely inside `a` or entirely inside `b`. -/
theorem sub_splits_at_sep {c : α} : ∀ (a : List α) {pat b : List α},
    c ∉ pat → pat <:+: a ++ c :: b → pat <:+: a ∨ pat <:+: b := by
  intro a
  induction a with
  | nil =>
      intro pat b hc hi
      rcases List.infix_cons_iff.mp hi with hp | hi'
      · have := sub_before_sep [] hc hp
        rw [List.prefix_nil.mp this]
        exact Or.inl List.nil_infix
      · exact Or.inr hi'
  | cons x a ih =>
      intro pat b hc hi
      rcases List.infix_cons_iff.mp hi with hp | hi'
      · left
        have hpre := sub_before_sep (x :: a) hc hp
        obtain ⟨t, ht⟩ := hpre
        exact ⟨[], t, by simpa using ht⟩
      · rcases ih hc hi' with h1 | h1
        · exact Or.inl (List.infix_cons_iff.mpr (Or.inr h1))
        · exact Or.inr h1

/-- An `app:classification` buffer entry contains the substring
`"off_task"` exactly when the recorded classification is `off_task`,
provided the app name itself does not contain `"off_task"` (an app name
containing it makes the entry count regardless of classification). -/
theorem strContains_entry (app : String) (c : Classification)
    (h : strContains app "off_task" = false) :
    strContains (app ++ ":" ++ classification_str c) "off_task" =
      decide (c = Classification.off_task) := by
  have hdata : (app ++ ":" ++ classification_str c).data =
      app.data ++ ':' :: (classification_str c).data := by
    rw [String.data_append, String.data_append, List.append_assoc]
    rfl
  have hni : ¬ ("off_task".data <:+: app.data) := of_decide_eq_false h
  have hsep : (':' : Char) ∉ "off_task".data := by decide
  cases c
  case off_task =>
    show decide _ = true
    apply decide_eq_true
    rw [hdata]
    exact ⟨app.data ++ [':'], [], by simp [classification_str]⟩
  all_goals
    show decide _ = false
    apply decide_eq_false
    intro hinf
    rw [hdata] at hinf
    rcases sub_splits_at_sep app.data hsep hinf with h1 | h1
    · exact hni h1
    · exact absurd h1 (by decide)

/-- C8 counterexample: recording six activities whose app name is literally
"off_task" with classification `unknown` makes `detect_goal_drift` return
true although none of the last 10 entries was recorded with classification
`off_task` — the detector tests the substring "off_task" against the whole
`app:classification` entry. -/
theorem goal_drift_counterexample :
    detect_goal_drift (record_judgments initJudgeState
      (List.replicate 6 ("off_task", Classification.unknown))) = true ∧
    (lastN 10 (List.replicate 6 ("off_task", Classification.unknown))).countP
      (fun r => decide (r.2 = Classification.off_task)) = 0 := by
  decide

/-- C8 (amended): for every recorded history whose app names do not contain
the substring "off_task", `detect_goal_drift` returns true exactly when at
least 6 of the last 10 recorded entries have classification `off_task`
(the detector's `len < 5` guard is invisible: fewer than 5 entries can
never contain 6 off-task ones).  Without the app-name proviso the
equivalence fails, because the substring test also matches inside the app
part of an `app:classification` entry. -/
theorem detect_goal_drift_iff (recs : List (String × Classification))
    (h : ∀ r ∈ recs, strContains r.1 "off_task" = false) :
    detect_goal_drift (record_judgments initJudgeState recs) = true ↔
      6 ≤ (lastN 10 recs).countP (fun r => decide (r.2 = Classification.off_task)) := by
  have hbuf : (record_judgments initJudgeState recs).activity_pattern =
      lastN 20 (recs.map pattern_entry) := by
    have := record_judgments_pattern recs initJudgeState (by simp [initJudgeState])
    rw [this]
    rfl
  have hlast : lastN 10 (record_judgments initJudgeState recs).activity_pattern =
      (lastN 10 recs).map pattern_entry := by
    rw [hbuf, lastN_lastN, show min 10 20 = 10 from rfl, lastN_map]
  have hcount : (lastN 10 (record_judgments initJudgeState recs).activity_pattern).countP
      (fun p => strContains p "off_task") =
      (lastN 10 recs).countP (fun r => decide (r.2 = Classification.off_task)) := by
    rw [hlast, List.countP_map]
    apply List.countP_congr
    intro r hr
    have hc := strContains_entry r.1 r.2 (h r (mem_of_mem_lastN hr))
    show strContains (pattern_entry r) "off_task" = true ↔ _
    rw [pattern_entry, hc]
  unfold detect_goal_drift
  split <;> rename_i hlen
  · simp only [Bool.false_eq_true, false_iff]
    intro h6
    have h1 : 6 ≤ (lastN 10 recs).length :=
      le_trans h6 (List.countP_le_length _)
    have h2 : (lastN 10 recs).length = min recs.length 10 := length_lastN _ _
    have h3 : (record_judgments initJudgeState recs).activity_pattern.length =
        min recs.length 20 := by
      rw [hbuf, length_lastN, List.length_map]
    omega
  · rw [decide_eq_true_eq, hcount]

/-- Closed instance of the C8 amended theorem: six off-task recordings of a
normal app trip the drift detector. -/
theorem detect_goal_drift_iff_witness :
    detect_goal_drift (record_judgments initJudgeState
      (List.replicate 6 ("chrome", Classification.off_task))) = true ↔
      6 ≤ (lastN 10 (List.replicate 6 ("chrome", Classification.off_task))).countP
        (fun r => decide (r.2 = Classification.off_task)) :=
  detect_goal_drift_iff (List.replicate 6 ("chrome", Classification.off_task)) (by decide)

end CodeSergeant
